import Mathlib

/-!
Verification of the OpsOrch PagerDuty adapter's query-filter translation and
field-mapping engine, shallowly embedded from the Go source.

The embedding covers:
* the vocabulary mappers (`mapSeverityToUrgency`, `mapUrgencyToSeverity`,
  `mapStatusToPD`, `mapPDStatusToOpsOrch`) from `incident/pagerduty_provider.go`;
* the name resolvers (`LookupServiceIDsByName`, `LookupTeamIDsByName`) from
  `common/` — the network transport is abstracted away and the decoded records
  of a successful listing response are passed in directly;
* the filter-parameter builder of `(*PagerDutyProvider).Query` (REST provider),
  with `url.Values` modelled as an ordered association list from parameter name
  to the list of its values, and the two network name-resolution calls
  abstracted as oracle functions returning the resolved ID lists;
* the response converters `convertPDIncident` / `convertPDLogEntry`, with Go's
  `time.Parse(time.RFC3339, s)` (standard library, external to this repository)
  abstracted as an oracle `String → Option Nat` (`none` = parse failure);
* the reference in-memory provider's `Create`/`Get` together with `cloneMap`,
  over an explicit heap of map cells so that map aliasing is observable.
-/

/-! ## String helpers (Go `strings` package behaviour on the inputs used) -/

/-- Go `strings.ToLower` (per-character lowering). -/
def strToLower (s : String) : String := ⟨s.data.map Char.toLower⟩

/-- Helper for substring search: does `hay` start with `needle`? -/
def leadMatch : List Char → List Char → Bool
  | [], _ => true
  | _ :: _, [] => false
  | c :: cs, d :: ds => c == d && leadMatch cs ds

/-- Helper: does the haystack contain the needle as a contiguous run? -/
def containsChars (needle : List Char) : List Char → Bool
  | [] => leadMatch needle []
  | c :: rest => leadMatch needle (c :: rest) || containsChars needle rest

/-- Go `strings.Contains hay needle`. -/
def strContains (hay needle : String) : Bool :=
  containsChars needle.data hay.data

/-! ## Vocabulary mappers (incident/pagerduty_provider.go) -/

/-- `mapSeverityToUrgency` maps OpsOrch severity to PagerDuty urgency. -/
def mapSeverityToUrgency (severity : String) : String :=
  let s := strToLower severity
  if s = "critical" ∨ s = "sev1" ∨ s = "p1" then "high"
  else if s = "high" ∨ s = "sev2" ∨ s = "p2" then "high"
  else if s = "medium" ∨ s = "sev3" ∨ s = "p3" then "low"
  else if s = "low" ∨ s = "sev4" ∨ s = "p4" then "low"
  else "high"

/-- `mapUrgencyToSeverity` maps PagerDuty urgency to OpsOrch severity. -/
def mapUrgencyToSeverity (urgency : String) : String :=
  let s := strToLower urgency
  if s = "high" then "critical"
  else if s = "low" then "medium"
  else "medium"

/-- `mapStatusToPD` maps OpsOrch status to PagerDuty status. -/
def mapStatusToPD (status : String) : String :=
  let s := strToLower status
  if s = "open" ∨ s = "triggered" then "triggered"
  else if s = "acknowledged" ∨ s = "investigating" then "acknowledged"
  else if s = "resolved" ∨ s = "closed" then "resolved"
  else status

/-- `mapPDStatusToOpsOrch` maps PagerDuty status to OpsOrch status. -/
def mapPDStatusToOpsOrch (status : String) : String :=
  let s := strToLower status
  if s = "triggered" then "open"
  else if s = "acknowledged" then "acknowledged"
  else if s = "resolved" then "resolved"
  else status

/-- `defaultString` returns `val` unless it is empty, else `fallback`. -/
def defaultString (val : String) (fallback : String) : String :=
  if val ≠ "" then val else fallback

/-- C5: `mapSeverityToUrgency` is total on strings: case-insensitively, every
value in {critical, sev1, p1, high, sev2, p2} maps to "high", every value in
{medium, sev3, p3, low, sev4, p4} maps to "low", and any other string maps to
"high" (the fail-safe default, not an error). -/
theorem severity_to_urgency_total (s : String) :
    (strToLower s ∈ ["critical", "sev1", "p1", "high", "sev2", "p2"] →
      mapSeverityToUrgency s = "high")
    ∧ (strToLower s ∈ ["medium", "sev3", "p3", "low", "sev4", "p4"] →
      mapSeverityToUrgency s = "low")
    ∧ (strToLower s ∉ ["critical", "sev1", "p1", "high", "sev2", "p2"] →
        strToLower s ∉ ["medium", "sev3", "p3", "low", "sev4", "p4"] →
        mapSeverityToUrgency s = "high") := by
  refine ⟨fun h => ?_, fun h => ?_, fun h1 h2 => ?_⟩
  · simp only [List.mem_cons, List.mem_singleton, List.not_mem_nil, or_false] at h
    rcases h with h | h | h | h | h | h <;>
      simp [mapSeverityToUrgency, h]
  · simp only [List.mem_cons, List.mem_singleton, List.not_mem_nil, or_false] at h
    rcases h with h | h | h | h | h | h <;>
      simp [mapSeverityToUrgency, h]
  · simp only [List.mem_cons, List.mem_singleton, List.not_mem_nil, or_false,
      not_or] at h1 h2
    obtain ⟨a1, a2, a3, a4, a5, a6⟩ := h1
    obtain ⟨b1, b2, b3, b4, b5, b6⟩ := h2
    simp [mapSeverityToUrgency, a1, a2, a3, a4, a5, a6, b1, b2, b3, b4, b5, b6]

/-- Witness for `severity_to_urgency_total`: concrete evaluations discharging
each hypothesis ("CRITICAL" exercises case-insensitivity, "sev3" the low tier,
"weird" the fail-safe default). -/
theorem severity_to_urgency_total_witness :
    mapSeverityToUrgency "CRITICAL" = "high"
    ∧ mapSeverityToUrgency "sev3" = "low"
    ∧ mapSeverityToUrgency "weird" = "high" :=
  ⟨(severity_to_urgency_total "CRITICAL").1 (by decide),
   (severity_to_urgency_total "sev3").2.1 (by decide),
   (severity_to_urgency_total "weird").2.2 (by decide) (by decide)⟩

/-- C6: the status mappers pass unknown values through unchanged in both
directions: `mapStatusToPD` maps open|triggered to "triggered",
acknowledged|investigating to "acknowledged", resolved|closed to "resolved",
and returns any other input string itself; `mapPDStatusToOpsOrch` is the
inverse direction (triggered to "open", acknowledged and resolved fixed) with
the same pass-through-on-unknown behaviour — neither direction defaults. -/
theorem status_mappers_pass_through (s : String) :
    (strToLower s ∈ ["open", "triggered"] → mapStatusToPD s = "triggered")
    ∧ (strToLower s ∈ ["acknowledged", "investigating"] →
        mapStatusToPD s = "acknowledged")
    ∧ (strToLower s ∈ ["resolved", "closed"] → mapStatusToPD s = "resolved")
    ∧ (strToLower s ∉ ["open", "triggered", "acknowledged", "investigating",
        "resolved", "closed"] → mapStatusToPD s = s)
    ∧ (strToLower s = "triggered" → mapPDStatusToOpsOrch s = "open")
    ∧ (strToLower s = "acknowledged" → mapPDStatusToOpsOrch s = "acknowledged")
    ∧ (strToLower s = "resolved" → mapPDStatusToOpsOrch s = "resolved")
    ∧ (strToLower s ∉ ["triggered", "acknowledged", "resolved"] →
        mapPDStatusToOpsOrch s = s) := by
  refine ⟨fun h => ?_, fun h => ?_, fun h => ?_, fun h => ?_,
    fun h => ?_, fun h => ?_, fun h => ?_, fun h => ?_⟩
  · simp only [List.mem_cons, List.mem_singleton, List.not_mem_nil, or_false] at h
    rcases h with h | h <;> simp [mapStatusToPD, h]
  · simp only [List.mem_cons, List.mem_singleton, List.not_mem_nil, or_false] at h
    rcases h with h | h <;> simp [mapStatusToPD, h]
  · simp only [List.mem_cons, List.mem_singleton, List.not_mem_nil, or_false] at h
    rcases h with h | h <;> simp [mapStatusToPD, h]
  · simp only [List.mem_cons, List.mem_singleton, List.not_mem_nil, or_false,
      not_or] at h
    obtain ⟨a1, a2, a3, a4, a5, a6⟩ := h
    simp [mapStatusToPD, a1, a2, a3, a4, a5, a6]
  · simp [mapPDStatusToOpsOrch, h]
  · simp [mapPDStatusToOpsOrch, h]
  · simp [mapPDStatusToOpsOrch, h]
  · simp only [List.mem_cons, List.mem_singleton, List.not_mem_nil, or_false,
      not_or] at h
    obtain ⟨a1, a2, a3⟩ := h
    simp [mapPDStatusToOpsOrch, a1, a2, a3]

/-- Witness for `status_mappers_pass_through`: concrete evaluations, including
the spec's example `mapStatusToPD "weird" = "weird"`. -/
theorem status_mappers_pass_through_witness :
    mapStatusToPD "open" = "triggered"
    ∧ mapStatusToPD "investigating" = "acknowledged"
    ∧ mapStatusToPD "closed" = "resolved"
    ∧ mapStatusToPD "weird" = "weird"
    ∧ mapPDStatusToOpsOrch "triggered" = "open"
    ∧ mapPDStatusToOpsOrch "acknowledged" = "acknowledged"
    ∧ mapPDStatusToOpsOrch "resolved" = "resolved"
    ∧ mapPDStatusToOpsOrch "strange" = "strange" :=
  ⟨(status_mappers_pass_through "open").1 (by decide),
   (status_mappers_pass_through "investigating").2.1 (by decide),
   (status_mappers_pass_through "closed").2.2.1 (by decide),
   (status_mappers_pass_through "weird").2.2.2.1 (by decide),
   (status_mappers_pass_through "triggered").2.2.2.2.1 (by decide),
   (status_mappers_pass_through "acknowledged").2.2.2.2.2.1 (by decide),
   (status_mappers_pass_through "resolved").2.2.2.2.2.2.1 (by decide),
   (status_mappers_pass_through "strange").2.2.2.2.2.2.2 (by decide)⟩

/-! ## Association-list helpers (Go maps restricted to the keys looked up) -/

/-- Lookup in a Go map modelled as an association list (first binding wins;
the lists we build have unique keys, matching Go map semantics). -/
def assocGet {α : Type} : List (String × α) → String → Option α
  | [], _ => none
  | (k', v) :: rest, k => if k' = k then some v else assocGet rest k

/-- Go map assignment `m[k] = v`: replace the binding of `k`, or append it. -/
def assocSet {α : Type} : List (String × α) → String → α → List (String × α)
  | [], k, v => [(k, v)]
  | (k', v') :: rest, k, v =>
    if k' = k then (k, v) :: rest else (k', v') :: assocSet rest k v

theorem assocGet_assocSet_self {α : Type} (m : List (String × α)) (k : String)
    (v : α) : assocGet (assocSet m k v) k = some v := by
  induction m with
  | nil => simp [assocGet, assocSet]
  | cons hd tl ih =>
    obtain ⟨k', v'⟩ := hd
    by_cases h : k' = k <;> simp [assocGet, assocSet, h, ih]

theorem assocGet_assocSet_ne {α : Type} (m : List (String × α)) (k k' : String)
    (v : α) (h : k' ≠ k) : assocGet (assocSet m k' v) k = assocGet m k := by
  induction m with
  | nil => simp [assocGet, assocSet, h]
  | cons hd tl ih =>
    obtain ⟨k0, v0⟩ := hd
    by_cases h0 : k0 = k' <;> simp [assocGet, assocSet, h0, h, ih]

/-! ## Name Resolver (`common.LookupServiceIDsByName` / `LookupTeamIDsByName`)

The HTTP transport and JSON decoding are external collaborators; the embedding
receives the decoded `{id, name}` records of a successful listing response and
performs the client-side filtering loop of the source. The error paths of the
Go functions are transport failures, which precede the loop modelled here. -/

/-- A decoded PagerDuty listing record (`{id, name}`). -/
structure PDRecord where
  id : String
  name : String
deriving DecidableEq

/-- The client-side filtering loop shared by both lookups: collect the `id` of
every record whose lower-cased name contains `lowerName`, in order. -/
def filterIDsLoop (lowerName : String) : List PDRecord → List String
  | [] => []
  | r :: rest =>
    if strContains (strToLower r.name) lowerName then
      r.id :: filterIDsLoop lowerName rest
    else
      filterIDsLoop lowerName rest

/-- `common.LookupServiceIDsByName`, success path: filter the decoded service
records to fuzzy matches and return their IDs. -/
def LookupServiceIDsByName (services : List PDRecord) (name : String) :
    List String :=
  filterIDsLoop (strToLower name) services

/-- `common.LookupTeamIDsByName`, success path: identical filtering over the
decoded team records. -/
def LookupTeamIDsByName (teams : List PDRecord) (name : String) :
    List String :=
  filterIDsLoop (strToLower name) teams

theorem filterIDsLoop_eq_filter_map (lowerName : String) (rs : List PDRecord) :
    filterIDsLoop lowerName rs
      = (rs.filter (fun r => strContains (strToLower r.name) lowerName)).map
          (fun r => r.id) := by
  induction rs with
  | nil => rfl
  | cons r rest ih =>
    by_cases h : strContains (strToLower r.name) lowerName = true <;>
      simp [filterIDsLoop, List.filter, h, ih]

/-- The name list of the spec's required example, with its identifiers. -/
def exampleDirectory : List PDRecord :=
  [⟨"SVCID1", "Production API"⟩, ⟨"SVCID2", "Production Database"⟩,
   ⟨"SVCID3", "Staging API"⟩]

/-- C4: for every successful listing response, name resolution (Service and
Team kinds alike) returns exactly the identifiers of the returned records
whose name, lower-cased, contains the lower-cased query name as a substring,
in the order received; no match yields the empty list as success, not an
error — in particular "production" against ["Production API",
"Production Database", "Staging API"] returns exactly the first two IDs, and
"nonexistent" returns []. -/
theorem lookup_ids_by_name_spec (records : List PDRecord) (name : String) :
    LookupServiceIDsByName records name
      = (records.filter
          (fun r => strContains (strToLower r.name) (strToLower name))).map
          (fun r => r.id)
    ∧ LookupTeamIDsByName records name
      = (records.filter
          (fun r => strContains (strToLower r.name) (strToLower name))).map
          (fun r => r.id)
    ∧ LookupServiceIDsByName exampleDirectory "production"
      = ["SVCID1", "SVCID2"]
    ∧ LookupTeamIDsByName exampleDirectory "production" = ["SVCID1", "SVCID2"]
    ∧ LookupServiceIDsByName exampleDirectory "nonexistent" = [] :=
  ⟨filterIDsLoop_eq_filter_map (strToLower name) records,
   filterIDsLoop_eq_filter_map (strToLower name) records,
   by decide, by decide, by decide⟩

/-! ## Query translation (`(*PagerDutyProvider).Query`, REST provider)

`url.Values` is `map[string][]string`; it is modelled as an association list
from parameter name to the list of its values. `Params.add` mirrors
`url.Values.Add` (append to the key's slice, creating the key with a single
value when absent — an empty value list is never created). `Params.set`
mirrors `url.Values.Set` (replace the key's slice by a single value). -/

/-- A Go `any` value as it occurs in query metadata: a string or anything
else (the code only ever type-asserts `.(string)`). -/
inductive GoVal where
  | str (s : String)
  | strMaps (ms : List (List (String × String)))
  | other
deriving DecidableEq

/-- Query metadata / incident metadata: a Go `map[string]any`. -/
abbrev GoMap := List (String × GoVal)

/-- The filter parameter set built by `Query` (Go `url.Values`). -/
abbrev Params := List (String × List String)

/-- `url.Values` lookup: the slice bound to `k`, or `none` when absent. -/
def Params.get (ps : Params) (k : String) : Option (List String) :=
  assocGet ps k

/-- `url.Values.Add`: append `v` to the slice of `k`. -/
def Params.add : Params → String → String → Params
  | [], k, v => [(k, [v])]
  | (k', vs) :: rest, k, v =>
    if k' = k then (k', vs ++ [v]) :: rest else (k', vs) :: Params.add rest k v

/-- `url.Values.Set`: bind `k` to the single value `v`. -/
def Params.set : Params → String → String → Params
  | [], k, v => [(k, [v])]
  | (k', vs) :: rest, k, v =>
    if k' = k then (k', [v]) :: rest else (k', vs) :: Params.set rest k v

/-- A Go loop `for _, v := range vs { params.Add(k, v) }`. -/
def addEach (ps : Params) (k : String) : List String → Params
  | [] => ps
  | v :: rest => addEach (Params.add ps k v) k rest

/-- `Query`'s `Scope` sub-record: canonical names to be resolved. -/
structure QueryScope where
  Service : String
  Team : String
  Environment : String
deriving DecidableEq

/-- `schema.IncidentQuery`, restricted to the fields `Query` reads. -/
structure IncidentQuery where
  Query : String
  Statuses : List String
  Severities : List String
  Limit : Int
  Scope : QueryScope
  Metadata : GoMap
deriving DecidableEq

/-- The provider `Config` (decrypted configuration). -/
structure Config where
  Source : String
  DefaultSeverity : String
  APIToken : String
  APIURL : String
  ServiceID : String
  FromEmail : String
deriving DecidableEq

/-- `q.Metadata[k].(string)`: the value bound to `k` when it is a string. -/
def metaString (m : GoMap) (k : String) : Option String :=
  match assocGet m k with
  | some (GoVal.str s) => some s
  | _ => none

/-- Limit block of `Query`: `limit=<value>` when positive, else `limit=100`. -/
def limitStep (limit : Int) (ps : Params) : Params :=
  if 0 < limit then Params.set ps "limit" (toString limit)
  else Params.set ps "limit" "100"

/-- Statuses block of `Query`: append `mapStatusToPD` of each status. -/
def statusesStep (statuses : List String) (ps : Params) : Params :=
  if 0 < statuses.length then
    addEach ps "statuses[]" (statuses.map mapStatusToPD)
  else ps

/-- Severities block of `Query`: append `mapSeverityToUrgency` of each. -/
def severitiesStep (severities : List String) (ps : Params) : Params :=
  if 0 < severities.length then
    addEach ps "urgencies[]" (severities.map mapSeverityToUrgency)
  else ps

/-- Scope.Service block of `Query`: resolve the name and append every
returned ID to `service_ids[]`. `resolveService` abstracts the successful
outcome of `common.LookupServiceIDsByName` (the error path aborts `Query`
before any parameter set is produced). -/
def serviceScopeStep (resolveService : String → List String) (service : String)
    (ps : Params) : Params :=
  if service ≠ "" then addEach ps "service_ids[]" (resolveService service)
  else ps

/-- Scope.Team block of `Query`: resolve and append to `team_ids[]`. -/
def teamScopeStep (resolveTeam : String → List String) (team : String)
    (ps : Params) : Params :=
  if team ≠ "" then addEach ps "team_ids[]" (resolveTeam team)
  else ps

/-- Metadata block of `Query`: recognized string-valued, non-empty entries are
appended (`service_id`, `team_id`) or set (`incident_key`). -/
def metadataStep (m : GoMap) (ps : Params) : Params :=
  if 0 < m.length then
    let ps :=
      match metaString m "service_id" with
      | some v => if v ≠ "" then Params.add ps "service_ids[]" v else ps
      | none => ps
    let ps :=
      match metaString m "team_id" with
      | some v => if v ≠ "" then Params.add ps "team_ids[]" v else ps
      | none => ps
    match metaString m "incident_key" with
    | some v => if v ≠ "" then Params.set ps "incident_key" v else ps
    | none => ps
  else ps

/-- The filter parameter set before the metadata passthrough block. -/
def preMetadataParams (resolveService resolveTeam : String → List String)
    (q : IncidentQuery) : Params :=
  teamScopeStep resolveTeam q.Scope.Team
    (serviceScopeStep resolveService q.Scope.Service
      (severitiesStep q.Severities
        (statusesStep q.Statuses
          (limitStep q.Limit []))))

/-- The complete filter parameter set built by `(*PagerDutyProvider).Query`
before the listing request is issued. The receiver's `Config` is passed in
(the method reads it only for the URL, token and headers of the network
calls — never for parameter building) and the two name resolutions are
abstracted as oracles for their successful results. -/
def buildIncidentParams (cfg : Config)
    (resolveService resolveTeam : String → List String)
    (q : IncidentQuery) : Params :=
  metadataStep q.Metadata (preMetadataParams resolveService resolveTeam q)

/-! ### Parameter-set lemmas -/

theorem Params.get_add_self (ps : Params) (k v : String) :
    (Params.add ps k v).get k = some ((ps.get k).getD [] ++ [v]) := by
  induction ps with
  | nil => simp [Params.get, Params.add, assocGet]
  | cons hd tl ih =>
    obtain ⟨k', vs⟩ := hd
    by_cases h : k' = k <;> simp [Params.get, Params.add, assocGet, h] at ih ⊢
    exact ih

theorem Params.get_add_ne (ps : Params) (k k' v : String) (h : k' ≠ k) :
    (Params.add ps k' v).get k = ps.get k := by
  induction ps with
  | nil => simp [Params.get, Params.add, assocGet, h]
  | cons hd tl ih =>
    obtain ⟨k0, vs⟩ := hd
    by_cases h0 : k0 = k'
    · subst h0
      simp [Params.get, Params.add, assocGet, h]
    · simp only [Params.add, if_neg h0]
      simp only [Params.get, assocGet] at ih ⊢
      by_cases hk : k0 = k <;> simp [hk, ih]

theorem Params.get_set_self (ps : Params) (k v : String) :
    (Params.set ps k v).get k = some [v] := by
  induction ps with
  | nil => simp [Params.get, Params.set, assocGet]
  | cons hd tl ih =>
    obtain ⟨k', vs⟩ := hd
    by_cases h : k' = k <;> simp [Params.get, Params.set, assocGet, h] at ih ⊢
    exact ih

theorem Params.get_set_ne (ps : Params) (k k' v : String) (h : k' ≠ k) :
    (Params.set ps k' v).get k = ps.get k := by
  induction ps with
  | nil => simp [Params.get, Params.set, assocGet, h]
  | cons hd tl ih =>
    obtain ⟨k0, vs⟩ := hd
    by_cases h0 : k0 = k'
    · subst h0
      simp [Params.get, Params.set, assocGet, h]
    · simp only [Params.set, if_neg h0]
      simp only [Params.get, assocGet] at ih ⊢
      by_cases hk : k0 = k <;> simp [hk, ih]

theorem get_addEach_self (k : String) (vs : List String) (ps : Params) :
    (addEach ps k vs).get k
      = if vs.isEmpty then ps.get k else some ((ps.get k).getD [] ++ vs) := by
  induction vs generalizing ps with
  | nil => simp [addEach]
  | cons v rest ih =>
    simp only [addEach, ih, Params.get_add_self, List.isEmpty_cons]
    by_cases h : rest.isEmpty
    · cases rest with
      | nil => simp [Params.get_add_self]
      | cons a b => simp at h
    · simp [h, Params.get_add_self]

theorem get_addEach_ne (k k' : String) (vs : List String) (ps : Params)
    (h : k' ≠ k) : (addEach ps k' vs).get k = ps.get k := by
  induction vs generalizing ps with
  | nil => simp [addEach]
  | cons v rest ih => simp [addEach, ih, Params.get_add_ne _ _ _ _ h]

theorem metaString_pos (m : GoMap) (k v : String)
    (h : metaString m k = some v) : 0 < m.length := by
  cases m with
  | nil => simp [metaString, assocGet] at h
  | cons hd tl => simp

theorem limitStep_get_limit (limit : Int) (ps : Params) :
    (limitStep limit ps).get "limit"
      = some [if 0 < limit then toString limit else "100"] := by
  unfold limitStep
  split <;> simp_all [Params.get_set_self]

theorem limitStep_get_ne (limit : Int) (ps : Params) (k : String)
    (h : k ≠ "limit") : (limitStep limit ps).get k = ps.get k := by
  unfold limitStep
  split <;> rw [Params.get_set_ne _ _ _ _ (Ne.symm h)]

theorem statusesStep_get (statuses : List String) (ps : Params)
    (hbase : ps.get "statuses[]" = none) :
    (statusesStep statuses ps).get "statuses[]"
      = if statuses.isEmpty then none
        else some (statuses.map mapStatusToPD) := by
  cases statuses with
  | nil => simp [statusesStep, hbase]
  | cons s rest =>
    simp [statusesStep, get_addEach_self, hbase]

theorem statusesStep_get_ne (statuses : List String) (ps : Params) (k : String)
    (h : k ≠ "statuses[]") : (statusesStep statuses ps).get k = ps.get k := by
  unfold statusesStep
  split
  · rw [get_addEach_ne _ _ _ _ (Ne.symm h)]
  · rfl

theorem severitiesStep_get (severities : List String) (ps : Params)
    (hbase : ps.get "urgencies[]" = none) :
    (severitiesStep severities ps).get "urgencies[]"
      = if severities.isEmpty then none
        else some (severities.map mapSeverityToUrgency) := by
  cases severities with
  | nil => simp [severitiesStep, hbase]
  | cons s rest =>
    simp [severitiesStep, get_addEach_self, hbase]

theorem severitiesStep_get_ne (severities : List String) (ps : Params)
    (k : String) (h : k ≠ "urgencies[]") :
    (severitiesStep severities ps).get k = ps.get k := by
  unfold severitiesStep
  split
  · rw [get_addEach_ne _ _ _ _ (Ne.symm h)]
  · rfl

theorem serviceScopeStep_get_ne (r : String → List String) (service : String)
    (ps : Params) (k : String) (h : k ≠ "service_ids[]") :
    (serviceScopeStep r service ps).get k = ps.get k := by
  unfold serviceScopeStep
  split
  · rw [get_addEach_ne _ _ _ _ (Ne.symm h)]
  · rfl

theorem teamScopeStep_get_ne (r : String → List String) (team : String)
    (ps : Params) (k : String) (h : k ≠ "team_ids[]") :
    (teamScopeStep r team ps).get k = ps.get k := by
  unfold teamScopeStep
  split
  · rw [get_addEach_ne _ _ _ _ (Ne.symm h)]
  · rfl

theorem metadataStep_get_other (m : GoMap) (ps : Params) (k : String)
    (h1 : k ≠ "service_ids[]") (h2 : k ≠ "team_ids[]")
    (h3 : k ≠ "incident_key") : (metadataStep m ps).get k = ps.get k := by
  unfold metadataStep
  split
  · rcases hs : metaString m "service_id" with _ | sv <;>
    rcases ht : metaString m "team_id" with _ | tv <;>
    rcases hk : metaString m "incident_key" with _ | kv <;>
      simp only [hs, ht, hk] <;>
      split_ifs <;>
      simp [Params.get_add_ne _ _ _ _ (Ne.symm h1),
        Params.get_add_ne _ _ _ _ (Ne.symm h2),
        Params.get_set_ne _ _ _ _ (Ne.symm h3)]
  · rfl

theorem metadataStep_get_service (m : GoMap) (ps : Params) (sv : String)
    (h : metaString m "service_id" = some sv) (hv : sv ≠ "") :
    (metadataStep m ps).get "service_ids[]"
      = some ((ps.get "service_ids[]").getD [] ++ [sv]) := by
  have hpos := metaString_pos m "service_id" sv h
  have d1 : ("team_ids[]" : String) ≠ "service_ids[]" := by decide
  have d2 : ("incident_key" : String) ≠ "service_ids[]" := by decide
  rcases ht : metaString m "team_id" with _ | tv <;>
  rcases hk : metaString m "incident_key" with _ | kv <;>
    simp only [metadataStep, if_pos hpos, h, ht, hk, if_pos hv] <;>
    (try split_ifs) <;>
    simp [Params.get_add_self, Params.get_add_ne _ _ _ _ d1,
      Params.get_set_ne _ _ _ _ d2]

theorem metadataStep_get_team (m : GoMap) (ps : Params) (tv : String)
    (h : metaString m "team_id" = some tv) (hv : tv ≠ "") :
    (metadataStep m ps).get "team_ids[]"
      = some ((ps.get "team_ids[]").getD [] ++ [tv]) := by
  have hpos := metaString_pos m "team_id" tv h
  have d1 : ("service_ids[]" : String) ≠ "team_ids[]" := by decide
  have d2 : ("incident_key" : String) ≠ "team_ids[]" := by decide
  rcases hs : metaString m "service_id" with _ | sv <;>
  rcases hk : metaString m "incident_key" with _ | kv <;>
    simp only [metadataStep, if_pos hpos, h, hs, hk, if_pos hv] <;>
    (try split_ifs) <;>
    simp [Params.get_add_self, Params.get_add_ne _ _ _ _ d1,
      Params.get_set_ne _ _ _ _ d2]

theorem metadataStep_get_key (m : GoMap) (ps : Params) (kv : String)
    (h : metaString m "incident_key" = some kv) (hv : kv ≠ "") :
    (metadataStep m ps).get "incident_key" = some [kv] := by
  have hpos := metaString_pos m "incident_key" kv h
  rcases hs : metaString m "service_id" with _ | sv <;>
  rcases ht : metaString m "team_id" with _ | tv <;>
    simp only [metadataStep, if_pos hpos, h, hs, ht, if_pos hv] <;>
    (try split_ifs) <;>
    simp [Params.get_set_self]

theorem metadataStep_skip_service (m : GoMap) (ps : Params)
    (h : metaString m "service_id" = none
      ∨ metaString m "service_id" = some "") :
    (metadataStep m ps).get "service_ids[]" = ps.get "service_ids[]" := by
  have d1 : ("team_ids[]" : String) ≠ "service_ids[]" := by decide
  have d2 : ("incident_key" : String) ≠ "service_ids[]" := by decide
  unfold metadataStep
  split
  · rcases ht : metaString m "team_id" with _ | tv <;>
    rcases hk : metaString m "incident_key" with _ | kv <;>
    rcases h with h | h <;>
      simp only [h, ht, hk] <;>
      split_ifs <;>
      simp_all [Params.get_add_ne _ _ _ _ d1, Params.get_set_ne _ _ _ _ d2]
  · rfl

theorem metadataStep_skip_team (m : GoMap) (ps : Params)
    (h : metaString m "team_id" = none ∨ metaString m "team_id" = some "") :
    (metadataStep m ps).get "team_ids[]" = ps.get "team_ids[]" := by
  have d1 : ("service_ids[]" : String) ≠ "team_ids[]" := by decide
  have d2 : ("incident_key" : String) ≠ "team_ids[]" := by decide
  unfold metadataStep
  split
  · rcases hs : metaString m "service_id" with _ | sv <;>
    rcases hk : metaString m "incident_key" with _ | kv <;>
    rcases h with h | h <;>
      simp only [h, hs, hk] <;>
      split_ifs <;>
      simp_all [Params.get_add_ne _ _ _ _ d1, Params.get_set_ne _ _ _ _ d2]
  · rfl

theorem metadataStep_skip_key (m : GoMap) (ps : Params)
    (h : metaString m "incident_key" = none
      ∨ metaString m "incident_key" = some "") :
    (metadataStep m ps).get "incident_key" = ps.get "incident_key" := by
  have d1 : ("service_ids[]" : String) ≠ "incident_key" := by decide
  have d2 : ("team_ids[]" : String) ≠ "incident_key" := by decide
  unfold metadataStep
  split
  · rcases hs : metaString m "service_id" with _ | sv <;>
    rcases ht : metaString m "team_id" with _ | tv <;>
    rcases h with h | h <;>
      simp only [h, hs, ht] <;>
      split_ifs <;>
      simp_all [Params.get_add_ne _ _ _ _ d1, Params.get_add_ne _ _ _ _ d2]
  · rfl

theorem serviceScopeStep_empty (r : String → List String) (ps : Params) :
    serviceScopeStep r "" ps = ps := by
  simp [serviceScopeStep]

theorem teamScopeStep_empty (r : String → List String) (ps : Params) :
    teamScopeStep r "" ps = ps := by
  simp [teamScopeStep]

theorem pre_get_base (rS rT : String → List String) (q : IncidentQuery)
    (k : String) (h1 : k ≠ "limit") (h2 : k ≠ "statuses[]")
    (h3 : k ≠ "urgencies[]") (h4 : k ≠ "service_ids[]")
    (h5 : k ≠ "team_ids[]") : (preMetadataParams rS rT q).get k = none := by
  unfold preMetadataParams
  rw [teamScopeStep_get_ne _ _ _ _ h5, serviceScopeStep_get_ne _ _ _ _ h4,
    severitiesStep_get_ne _ _ _ h3, statusesStep_get_ne _ _ _ h2,
    limitStep_get_ne _ _ _ h1]
  rfl

theorem pre_getD_team (rS rT : String → List String) (q : IncidentQuery)
    (hteam : q.Scope.Team ≠ "") :
    ((preMetadataParams rS rT q).get "team_ids[]").getD []
      = rT q.Scope.Team := by
  have hX : (serviceScopeStep rS q.Scope.Service
      (severitiesStep q.Severities (statusesStep q.Statuses
        (limitStep q.Limit [])))).get "team_ids[]" = none := by
    rw [serviceScopeStep_get_ne _ _ _ _ (by decide),
      severitiesStep_get_ne _ _ _ (by decide),
      statusesStep_get_ne _ _ _ (by decide),
      limitStep_get_ne _ _ _ (by decide)]
    rfl
  unfold preMetadataParams teamScopeStep
  rw [if_pos hteam, get_addEach_self, hX]
  cases hrt : rT q.Scope.Team <;> simp

theorem pre_getD_service (rS rT : String → List String) (q : IncidentQuery)
    (hsvc : q.Scope.Service ≠ "") :
    ((preMetadataParams rS rT q).get "service_ids[]").getD []
      = rS q.Scope.Service := by
  have hX : (severitiesStep q.Severities (statusesStep q.Statuses
      (limitStep q.Limit []))).get "service_ids[]" = none := by
    rw [severitiesStep_get_ne _ _ _ (by decide),
      statusesStep_get_ne _ _ _ (by decide),
      limitStep_get_ne _ _ _ (by decide)]
    rfl
  unfold preMetadataParams
  rw [teamScopeStep_get_ne _ _ _ _ (by decide)]
  unfold serviceScopeStep
  rw [if_pos hsvc, get_addEach_self, hX]
  cases hrs : rS q.Scope.Service <;> simp

/-! ### Claim theorems about the query translator -/

/-- A fully-populated configuration with a non-empty default ServiceID. -/
def cfgA : Config :=
  ⟨"pagerduty", "critical", "token", "https://api.example", "DEFAULT_SVC",
   "user@example.com"⟩

/-- The same configuration with a different (empty) default ServiceID. -/
def cfgB : Config :=
  ⟨"pagerduty", "critical", "token", "https://api.example", "",
   "user@example.com"⟩

/-- A resolver oracle that yields zero IDs for every name. -/
def zeroResolver : String → List String := fun _ => []

/-- The spec's example query for C7. -/
def exampleBasicQuery : IncidentQuery :=
  ⟨"", ["open", "acknowledged"], ["critical", "high"], 20, ⟨"", "", ""⟩, []⟩

/-- C7: for every incident query the translator sets `limit` to the query's
value when positive and to 100 otherwise, appends `mapStatusToPD` of each
listed status to `statuses[]` in order, and `mapSeverityToUrgency` of each
listed severity to `urgencies[]` in order; in particular the query
{Statuses: [open, acknowledged], Severities: [critical, high], Limit: 20}
yields statuses[]=[triggered, acknowledged], urgencies[]=[high, high],
limit=20. -/
theorem query_basic_filters (cfg : Config)
    (rS rT : String → List String) (q : IncidentQuery) :
    (buildIncidentParams cfg rS rT q).get "limit"
      = some [if 0 < q.Limit then toString q.Limit else "100"]
    ∧ (buildIncidentParams cfg rS rT q).get "statuses[]"
      = (if q.Statuses.isEmpty then none
         else some (q.Statuses.map mapStatusToPD))
    ∧ (buildIncidentParams cfg rS rT q).get "urgencies[]"
      = (if q.Severities.isEmpty then none
         else some (q.Severities.map mapSeverityToUrgency))
    ∧ (buildIncidentParams cfg rS rT exampleBasicQuery).get "statuses[]"
      = some ["triggered", "acknowledged"]
    ∧ (buildIncidentParams cfg rS rT exampleBasicQuery).get "urgencies[]"
      = some ["high", "high"]
    ∧ (buildIncidentParams cfg rS rT exampleBasicQuery).get "limit"
      = some ["20"] := by
  refine ⟨?_, ?_, ?_, rfl, rfl, rfl⟩
  · unfold buildIncidentParams
    rw [metadataStep_get_other _ _ _ (by decide) (by decide) (by decide)]
    unfold preMetadataParams
    rw [teamScopeStep_get_ne _ _ _ _ (by decide),
      serviceScopeStep_get_ne _ _ _ _ (by decide),
      severitiesStep_get_ne _ _ _ (by decide),
      statusesStep_get_ne _ _ _ (by decide),
      limitStep_get_limit]
  · unfold buildIncidentParams
    rw [metadataStep_get_other _ _ _ (by decide) (by decide) (by decide)]
    unfold preMetadataParams
    rw [teamScopeStep_get_ne _ _ _ _ (by decide),
      serviceScopeStep_get_ne _ _ _ _ (by decide),
      severitiesStep_get_ne _ _ _ (by decide),
      statusesStep_get _ _ (by rw [limitStep_get_ne _ _ _ (by decide)]; rfl)]
  · unfold buildIncidentParams
    rw [metadataStep_get_other _ _ _ (by decide) (by decide) (by decide)]
    unfold preMetadataParams
    rw [teamScopeStep_get_ne _ _ _ _ (by decide),
      serviceScopeStep_get_ne _ _ _ _ (by decide),
      severitiesStep_get _ _ (by
        rw [statusesStep_get_ne _ _ _ (by decide),
          limitStep_get_ne _ _ _ (by decide)]; rfl)]

/-- C2: metadata passthrough is additive, applied after Scope-derived filters:
with both a non-empty Scope.Team (resolving to `rT q.Scope.Team`) and a
non-empty string Metadata["team_id"], `team_ids[]` holds every resolved ID
followed by the metadata ID; likewise Metadata["service_id"] is appended to
`service_ids[]` after the Scope.Service-resolved IDs; Metadata["incident_key"]
sets the single-valued `incident_key` parameter (overwrite semantics). -/
theorem metadata_passthrough_additive (cfg : Config)
    (rS rT : String → List String) (q : IncidentQuery) (tv sv kv : String)
    (hteam : q.Scope.Team ≠ "")
    (hmt : metaString q.Metadata "team_id" = some tv) (htv : tv ≠ "")
    (hsvc : q.Scope.Service ≠ "")
    (hms : metaString q.Metadata "service_id" = some sv) (hsv : sv ≠ "")
    (hmk : metaString q.Metadata "incident_key" = some kv) (hkv : kv ≠ "") :
    (buildIncidentParams cfg rS rT q).get "team_ids[]"
      = some (rT q.Scope.Team ++ [tv])
    ∧ (buildIncidentParams cfg rS rT q).get "service_ids[]"
      = some (rS q.Scope.Service ++ [sv])
    ∧ (buildIncidentParams cfg rS rT q).get "incident_key" = some [kv] := by
  refine ⟨?_, ?_, ?_⟩
  · unfold buildIncidentParams
    rw [metadataStep_get_team _ _ _ hmt htv, pre_getD_team _ _ _ hteam]
  · unfold buildIncidentParams
    rw [metadataStep_get_service _ _ _ hms hsv, pre_getD_service _ _ _ hsvc]
  · unfold buildIncidentParams
    rw [metadataStep_get_key _ _ _ hmk hkv]

/-- The spec's example query for C2: Scope resolves to ["TEAM1"] for teams
and ["SVC1"] for services, metadata adds TEAM2 / S9 / KEY1. -/
def examplePassthroughQuery : IncidentQuery :=
  ⟨"", [], [], 0, ⟨"Production", "Platform", ""⟩,
   [("service_id", GoVal.str "S9"), ("team_id", GoVal.str "TEAM2"),
    ("incident_key", GoVal.str "KEY1")]⟩

/-- Witness for `metadata_passthrough_additive`: Scope.Team "Platform"
resolving to ["TEAM1"] plus Metadata["team_id"]="TEAM2" produce
team_ids[]=[TEAM1, TEAM2], not a single value. -/
theorem metadata_passthrough_additive_witness :
    (buildIncidentParams cfgA (fun _ => ["SVC1"]) (fun _ => ["TEAM1"])
        examplePassthroughQuery).get "team_ids[]" = some ["TEAM1", "TEAM2"]
    ∧ (buildIncidentParams cfgA (fun _ => ["SVC1"]) (fun _ => ["TEAM1"])
        examplePassthroughQuery).get "service_ids[]" = some ["SVC1", "S9"]
    ∧ (buildIncidentParams cfgA (fun _ => ["SVC1"]) (fun _ => ["TEAM1"])
        examplePassthroughQuery).get "incident_key" = some ["KEY1"] :=
  metadata_passthrough_additive cfgA (fun _ => ["SVC1"]) (fun _ => ["TEAM1"])
    examplePassthroughQuery "TEAM2" "S9" "KEY1"
    (by decide) rfl (by decide) (by decide) rfl (by decide) rfl (by decide)

/-- The C1 scenario: a query whose only filter is Scope.Service. -/
def scopedServiceQuery : IncidentQuery :=
  ⟨"", [], [], 0, ⟨"Production", "", ""⟩, []⟩

/-- The same query with no service scope at all. -/
def unscopedServiceQuery : IncidentQuery :=
  ⟨"", [], [], 0, ⟨"", "", ""⟩, []⟩

/-- C1 counterexample: translating a query with Scope.Service = "Production"
against a resolver that yields zero IDs produces a filter set in which
`service_ids[]` is NOT present at all (the translated parameter set does not
contain the parameter with zero values), and that filter set is IDENTICAL to
— not distinguishable from — the one produced by the same query with no
service scope. This refutes the claim at a concrete input. -/
theorem zero_ids_counterexample :
    (buildIncidentParams cfgA zeroResolver zeroResolver
        scopedServiceQuery).get "service_ids[]" = none
    ∧ buildIncidentParams cfgA zeroResolver zeroResolver scopedServiceQuery
      = buildIncidentParams cfgA zeroResolver zeroResolver
          unscopedServiceQuery :=
  ⟨rfl, rfl⟩

/-- C1 amended: for every incident query whose Scope.Service resolution
succeeds with zero IDs, the `for` loop appends nothing, so no `service_ids[]`
parameter is created: the translated filter parameter set is identical to
that of the same query with no service scope (zero resolved IDs behave as
"no filter", not as a present-but-empty filter). -/
theorem zero_ids_amended (cfg : Config) (rS rT : String → List String)
    (q : IncidentQuery) (h : rS q.Scope.Service = []) :
    buildIncidentParams cfg rS rT q
      = buildIncidentParams cfg rS rT
          { q with Scope := { q.Scope with Service := "" } } := by
  by_cases hs : q.Scope.Service = ""
  · simp [buildIncidentParams, preMetadataParams, serviceScopeStep, hs]
  · simp [buildIncidentParams, preMetadataParams, serviceScopeStep, hs, h,
      addEach]

/-- Witness for `zero_ids_amended` at the concrete C1 scenario. -/
theorem zero_ids_amended_witness :
    buildIncidentParams cfgA zeroResolver zeroResolver scopedServiceQuery
      = buildIncidentParams cfgA zeroResolver zeroResolver
          { scopedServiceQuery with
            Scope := { scopedServiceQuery.Scope with Service := "" } } :=
  zero_ids_amended cfgA zeroResolver zeroResolver scopedServiceQuery rfl

/-- C3: the translated filter parameter set never depends on the configured
default service identifier: two configurations differing only in ServiceID
yield the identical parameter set for every query and resolver, and a query
with no explicit service/team filters yields a parameter set containing no
`service_ids[]` or `team_ids[]` parameter even when ServiceID is non-empty. -/
theorem config_default_scope_independent (c1 c2 : Config)
    (rS rT : String → List String) (q : IncidentQuery)
    (hS : c1.Source = c2.Source)
    (hD : c1.DefaultSeverity = c2.DefaultSeverity)
    (hT : c1.APIToken = c2.APIToken) (hU : c1.APIURL = c2.APIURL)
    (hF : c1.FromEmail = c2.FromEmail) :
    buildIncidentParams c1 rS rT q = buildIncidentParams c2 rS rT q
    ∧ (q.Scope.Service = "" → q.Scope.Team = "" →
        metaString q.Metadata "service_id" = none →
        metaString q.Metadata "team_id" = none →
        (buildIncidentParams c1 rS rT q).get "service_ids[]" = none
        ∧ (buildIncidentParams c1 rS rT q).get "team_ids[]" = none) := by
  refine ⟨rfl, fun hsvc hteam hms hmt => ⟨?_, ?_⟩⟩
  · unfold buildIncidentParams
    rw [metadataStep_skip_service _ _ (Or.inl hms)]
    unfold preMetadataParams
    rw [teamScopeStep_get_ne _ _ _ _ (by decide), hsvc,
      serviceScopeStep_empty, severitiesStep_get_ne _ _ _ (by decide),
      statusesStep_get_ne _ _ _ (by decide),
      limitStep_get_ne _ _ _ (by decide)]
    rfl
  · unfold buildIncidentParams
    rw [metadataStep_skip_team _ _ (Or.inl hmt)]
    unfold preMetadataParams
    rw [hteam, teamScopeStep_empty,
      serviceScopeStep_get_ne _ _ _ _ (by decide),
      severitiesStep_get_ne _ _ _ (by decide),
      statusesStep_get_ne _ _ _ (by decide),
      limitStep_get_ne _ _ _ (by decide)]
    rfl

/-- Witness for `config_default_scope_independent`: cfgA and cfgB differ only
in ServiceID ("DEFAULT_SVC" vs ""), and an unfiltered query produces no
service/team parameters under cfgA. -/
theorem config_default_scope_independent_witness :
    buildIncidentParams cfgA zeroResolver zeroResolver unscopedServiceQuery
      = buildIncidentParams cfgB zeroResolver zeroResolver
          unscopedServiceQuery
    ∧ (buildIncidentParams cfgA zeroResolver zeroResolver
        unscopedServiceQuery).get "service_ids[]" = none
    ∧ (buildIncidentParams cfgA zeroResolver zeroResolver
        unscopedServiceQuery).get "team_ids[]" = none :=
  ⟨(config_default_scope_independent cfgA cfgB zeroResolver zeroResolver
      unscopedServiceQuery rfl rfl rfl rfl rfl).1,
   (config_default_scope_independent cfgA cfgB zeroResolver zeroResolver
      unscopedServiceQuery rfl rfl rfl rfl rfl).2 rfl rfl rfl rfl⟩

/-- C10: a Metadata entry under a recognized key ("service_id", "team_id",
"incident_key") whose value is not a string, or is the empty string,
contributes no filter parameter at all — the parameter for that key is
exactly what the pre-metadata translation produced — and translation still
succeeds (the builder is total). -/
theorem metadata_guard_silent (cfg : Config)
    (rS rT : String → List String) (q : IncidentQuery) :
    ((metaString q.Metadata "service_id" = none
        ∨ metaString q.Metadata "service_id" = some "") →
      (buildIncidentParams cfg rS rT q).get "service_ids[]"
        = (preMetadataParams rS rT q).get "service_ids[]")
    ∧ ((metaString q.Metadata "team_id" = none
        ∨ metaString q.Metadata "team_id" = some "") →
      (buildIncidentParams cfg rS rT q).get "team_ids[]"
        = (preMetadataParams rS rT q).get "team_ids[]")
    ∧ ((metaString q.Metadata "incident_key" = none
        ∨ metaString q.Metadata "incident_key" = some "") →
      (buildIncidentParams cfg rS rT q).get "incident_key"
        = (preMetadataParams rS rT q).get "incident_key") :=
  ⟨fun h => metadataStep_skip_service _ _ h,
   fun h => metadataStep_skip_team _ _ h,
   fun h => metadataStep_skip_key _ _ h⟩

/-- A query whose recognized metadata keys hold a non-string value
("service_id"), an empty string ("team_id"), and are absent
("incident_key"), plus an unrecognized key. -/
def guardedMetadataQuery : IncidentQuery :=
  ⟨"", [], [], 0, ⟨"", "", ""⟩,
   [("service_id", GoVal.other), ("team_id", GoVal.str ""),
    ("unknown", GoVal.str "x")]⟩

/-- Witness for `metadata_guard_silent` at the concrete guarded query. -/
theorem metadata_guard_silent_witness :
    (buildIncidentParams cfgA zeroResolver zeroResolver
        guardedMetadataQuery).get "service_ids[]"
      = (preMetadataParams zeroResolver zeroResolver
          guardedMetadataQuery).get "service_ids[]"
    ∧ (buildIncidentParams cfgA zeroResolver zeroResolver
        guardedMetadataQuery).get "team_ids[]"
      = (preMetadataParams zeroResolver zeroResolver
          guardedMetadataQuery).get "team_ids[]"
    ∧ (buildIncidentParams cfgA zeroResolver zeroResolver
        guardedMetadataQuery).get "incident_key"
      = (preMetadataParams zeroResolver zeroResolver
          guardedMetadataQuery).get "incident_key" :=
  ⟨(metadata_guard_silent cfgA zeroResolver zeroResolver
      guardedMetadataQuery).1 (Or.inl rfl),
   (metadata_guard_silent cfgA zeroResolver zeroResolver
      guardedMetadataQuery).2.1 (Or.inr rfl),
   (metadata_guard_silent cfgA zeroResolver zeroResolver
      guardedMetadataQuery).2.2 (Or.inl rfl)⟩

/-! ## Response converters (`convertPDIncident` / `convertPDLogEntry`)

Go `time.Time` is modelled as `Option Nat` with `none` as the zero value;
`time.Parse(time.RFC3339, s)` (standard library, an external collaborator) is
abstracted as an oracle `parse : String → Option Nat` returning `none`
exactly when parsing fails, so that `if t, err := time.Parse(...); err == nil
{ field = t }` becomes `field := parse s`. -/

/-- The nested `service` reference of a PagerDuty incident. -/
structure PDServiceRef where
  id : String
  summary : String
  htmlURL : String
deriving DecidableEq

/-- One entry of a PagerDuty incident's `assignments` (its `assignee`). -/
structure PDAssignee where
  id : String
  summary : String
  htmlURL : String
deriving DecidableEq

/-- `pdIncident`: a PagerDuty incident as decoded from the API. -/
structure PDIncident where
  id : String
  incidentKey : String
  title : String
  status : String
  urgency : String
  htmlURL : String
  service : PDServiceRef
  assignments : List PDAssignee
  lastStatusChangeAt : String
  createdAt : String
  updatedAt : String
deriving DecidableEq

/-- The `agent` sub-object of a PagerDuty log entry (a nil-able pointer). -/
structure PDAgent where
  summary : String
deriving DecidableEq

/-- `pdLogEntry`: a PagerDuty log entry as decoded from the API. -/
structure PDLogEntry where
  id : String
  type : String
  summary : String
  createdAt : String
  agent : Option PDAgent
deriving DecidableEq

/-- `schema.Incident`, restricted to the fields `convertPDIncident` sets. -/
structure Incident where
  ID : String
  Title : String
  Status : String
  Severity : String
  Service : String
  Metadata : GoMap
  CreatedAt : Option Nat
  UpdatedAt : Option Nat
deriving DecidableEq

/-- `schema.TimelineEntry`, restricted to the fields `convertPDLogEntry`
sets (`Actor` is a nil-able Go map: `none` models the nil map). -/
structure TimelineEntry where
  ID : String
  IncidentID : String
  At : Option Nat
  Kind : String
  Body : String
  Actor : Option GoMap
  Metadata : GoMap
deriving DecidableEq

/-- `convertPDIncident`: total conversion of a provider incident into the
host schema, flattening provider detail into the metadata mapping. -/
def convertPDIncident (parse : String → Option Nat) (pdInc : PDIncident)
    (source : String) : Incident :=
  let base : GoMap :=
    [("source", GoVal.str source),
     ("incident_key", GoVal.str pdInc.incidentKey),
     ("service_id", GoVal.str pdInc.service.id),
     ("service_url", GoVal.str pdInc.service.htmlURL),
     ("html_url", GoVal.str pdInc.htmlURL),
     ("last_status_change_at", GoVal.str pdInc.lastStatusChangeAt)]
  let md :=
    if 0 < pdInc.assignments.length then
      base ++ [("assignments", GoVal.strMaps (pdInc.assignments.map
        (fun a => [("id", a.id), ("name", a.summary),
                   ("html_url", a.htmlURL)])))]
    else base
  { ID := pdInc.id
    Title := pdInc.title
    Status := mapPDStatusToOpsOrch pdInc.status
    Severity := mapUrgencyToSeverity pdInc.urgency
    Service := pdInc.service.summary
    Metadata := md
    CreatedAt := parse pdInc.createdAt
    UpdatedAt := parse pdInc.updatedAt }

/-- `convertPDLogEntry`: total conversion of a provider log entry into a
host timeline entry. -/
def convertPDLogEntry (parse : String → Option Nat) (le : PDLogEntry)
    (incidentID : String) : TimelineEntry :=
  { ID := le.id
    IncidentID := incidentID
    At := parse le.createdAt
    Kind := le.type
    Body := le.summary
    Actor := le.agent.map (fun a => [("name", GoVal.str a.summary)])
    Metadata := [("type", GoVal.str le.type)] }

/-- C9: the response converters are total — they always produce a host record
— and degrade gracefully: an empty assignments list omits the "assignments"
metadata key, an absent agent leaves the timeline actor at its nil zero
value, and a created_at/updated_at timestamp that fails to parse as RFC3339
leaves the host timestamp at the zero value instead of raising an error. -/
theorem converters_total_graceful (parse : String → Option Nat)
    (pdInc : PDIncident) (source : String) (le : PDLogEntry)
    (incidentID : String) :
    (parse pdInc.createdAt = none →
      (convertPDIncident parse pdInc source).CreatedAt = none)
    ∧ (parse pdInc.updatedAt = none →
      (convertPDIncident parse pdInc source).UpdatedAt = none)
    ∧ (pdInc.assignments = [] →
      assocGet (convertPDIncident parse pdInc source).Metadata "assignments"
        = none)
    ∧ (le.agent = none → (convertPDLogEntry parse le incidentID).Actor = none)
    ∧ (parse le.createdAt = none →
      (convertPDLogEntry parse le incidentID).At = none) := by
  refine ⟨fun h => ?_, fun h => ?_, fun h => ?_, fun h => ?_, fun h => ?_⟩
  · simp [convertPDIncident, h]
  · simp [convertPDIncident, h]
  · simp [convertPDIncident, h, assocGet]
  · simp [convertPDLogEntry, h]
  · simp [convertPDLogEntry, h]

/-- A provider incident with unparsable timestamps and no assignments. -/
def degradedPDIncident : PDIncident :=
  ⟨"PINC1", "key1", "Broken clock", "triggered", "high", "http://i",
   ⟨"SVC1", "Svc", "http://s"⟩, [], "not-a-time", "not-a-time",
   "also-not-a-time"⟩

/-- A provider log entry with an unparsable timestamp and no agent. -/
def degradedPDLogEntry : PDLogEntry :=
  ⟨"LOG1", "annotate", "a note", "not-a-time", none⟩

/-- A parse oracle under which every timestamp fails to parse. -/
def failingParse : String → Option Nat := fun _ => none

/-- Witness for `converters_total_graceful` at concrete degraded records. -/
theorem converters_total_graceful_witness :
    (convertPDIncident failingParse degradedPDIncident "pagerduty").CreatedAt
      = none
    ∧ (convertPDIncident failingParse degradedPDIncident
        "pagerduty").UpdatedAt = none
    ∧ assocGet (convertPDIncident failingParse degradedPDIncident
        "pagerduty").Metadata "assignments" = none
    ∧ (convertPDLogEntry failingParse degradedPDLogEntry "PINC1").Actor
      = none
    ∧ (convertPDLogEntry failingParse degradedPDLogEntry "PINC1").At
      = none :=
  ⟨(converters_total_graceful failingParse degradedPDIncident "pagerduty"
      degradedPDLogEntry "PINC1").1 rfl,
   (converters_total_graceful failingParse degradedPDIncident "pagerduty"
      degradedPDLogEntry "PINC1").2.1 rfl,
   (converters_total_graceful failingParse degradedPDIncident "pagerduty"
      degradedPDLogEntry "PINC1").2.2.1 rfl,
   (converters_total_graceful failingParse degradedPDIncident "pagerduty"
      degradedPDLogEntry "PINC1").2.2.2.1 rfl,
   (converters_total_graceful failingParse degradedPDIncident "pagerduty"
      degradedPDLogEntry "PINC1").2.2.2.2 rfl⟩

/-! ## Reference in-memory provider (`Create`/`Get` with `cloneMap`)

Go maps are reference values, so aliasing is observable. The model uses an
explicit heap of map cells: a Go `map[string]any` variable is a `MapRef`
(`none` models the nil map), and the heap assigns contents to each cell.
`cloneMap` allocates a fresh cell holding a copy of the contents, exactly as
the source's key-by-key copy does; a nil map stays nil. -/

/-- A reference to a map cell (`none` = Go nil map). -/
abbrev MapRef := Option Nat

/-- The heap of allocated map cells. -/
structure Heap where
  cells : List GoMap
deriving DecidableEq

/-- Read the contents visible through a map reference. -/
def Heap.read (h : Heap) (r : MapRef) : GoMap :=
  match r with
  | none => []
  | some i => h.cells.getD i []

/-- Allocate a fresh cell with the given contents. -/
def Heap.alloc (h : Heap) (m : GoMap) : MapRef × Heap :=
  (some h.cells.length, ⟨h.cells ++ [m]⟩)

/-- A map assignment `m[k] = v` performed through a reference (undefined on
the nil map in Go; modelled as a no-op there, and never exercised on nil). -/
def Heap.write (h : Heap) (r : MapRef) (k : String) (v : GoVal) : Heap :=
  match r with
  | none => h
  | some i => ⟨h.cells.set i (assocSet (h.cells.getD i []) k v)⟩

/-- `cloneMap`: nil stays nil; otherwise a fresh map receives every
key/value pair of the input. -/
def cloneMap (h : Heap) (r : MapRef) : MapRef × Heap :=
  match r with
  | none => (none, h)
  | some i => h.alloc (h.cells.getD i [])

/-- The in-memory provider's configuration. -/
structure MemConfig where
  Source : String
  DefaultSeverity : String
  APIToken : String
  APIURL : String
deriving DecidableEq

/-- `schema.CreateIncidentInput`, with its two Go maps as references. -/
structure CreateIncidentInput where
  Title : String
  Status : String
  Severity : String
  Service : String
  FieldsRef : MapRef
  MetadataRef : MapRef
deriving DecidableEq

/-- A stored/returned incident of the in-memory provider (timestamps as
bare `Nat`, supplied by the `time.Now()` oracle argument). -/
structure IncidentRec where
  ID : String
  Title : String
  Status : String
  Severity : String
  Service : String
  CreatedAt : Nat
  UpdatedAt : Nat
  FieldsRef : MapRef
  MetadataRef : MapRef
deriving DecidableEq

/-- The in-memory provider's state behind its mutex. -/
structure ProviderState where
  cfg : MemConfig
  nextID : Nat
  incidents : List (String × IncidentRec)
  heap : Heap
deriving DecidableEq

/-- `(*PagerDutyProvider).Create` of the in-memory provider: clone the input
maps, default the severity, ensure a metadata map exists, stamp its source,
store the incident under a generated ID and return it. `now` abstracts
`time.Now()`. -/
def memCreate (st : ProviderState) (now : Nat) (inp : CreateIncidentInput) :
    IncidentRec × ProviderState :=
  let nextID := st.nextID + 1
  let id := "pd-" ++ toString nextID
  let fieldsClone := cloneMap st.heap inp.FieldsRef
  let metaClone := cloneMap fieldsClone.2 inp.MetadataRef
  let ensured :=
    match metaClone.1 with
    | none => Heap.alloc metaClone.2 []
    | some i => (some i, metaClone.2)
  let stamped := Heap.write ensured.2 ensured.1 "source"
    (GoVal.str st.cfg.Source)
  let incident : IncidentRec :=
    { ID := id
      Title := inp.Title
      Status := inp.Status
      Severity := defaultString inp.Severity st.cfg.DefaultSeverity
      Service := inp.Service
      CreatedAt := now
      UpdatedAt := now
      FieldsRef := fieldsClone.1
      MetadataRef := ensured.1 }
  (incident,
   { st with
      nextID := nextID
      heap := stamped
      incidents := assocSet st.incidents id incident })

/-- `(*PagerDutyProvider).Get` of the in-memory provider: return the stored
incident record itself (`none` = errNotFound). No map is cloned on read. -/
def memGet (st : ProviderState) (id : String) : Option IncidentRec :=
  assocGet st.incidents id

theorem getD_set_ne {α : Type} (l : List α) (i j : Nat) (x : α) (d : α)
    (h : i ≠ j) : (l.set i x).getD j d = l.getD j d := by
  induction l generalizing i j with
  | nil => simp
  | cons hd tl ih =>
    cases i with
    | zero =>
      cases j with
      | zero => exact absurd rfl h
      | succ j' => simp
    | succ i' =>
      cases j with
      | zero => simp
      | succ j' => simpa using ih i' j' (by omega)

/-- The C8 scenario: an in-memory provider fresh from `New`, and a heap with
one caller-owned metadata map cell `[("extra", "field")]`. -/
def c8State0 : ProviderState :=
  ⟨⟨"demo", "sev3", "token", "https://api.pagerduty.com"⟩, 0, [],
   ⟨[[("extra", GoVal.str "field")]]⟩⟩

/-- The C8 create input, whose metadata is the caller-owned cell 0. -/
def c8Input : CreateIncidentInput :=
  ⟨"title", "open", "", "svc-a", none, some 0⟩

/-- The provider state right after `Create`. -/
def c8AfterCreate : ProviderState := (memCreate c8State0 7 c8Input).2

/-- The metadata reference of the record returned by a subsequent `Get`. -/
def c8ReturnedRef : MapRef :=
  match memGet c8AfterCreate "pd-1" with
  | some inc => inc.MetadataRef
  | none => none

/-- The provider state after the caller mutates the mapping returned by
`Get` (writes "extra" ↦ "mutated" through the returned reference). -/
def c8AfterMutation : ProviderState :=
  { c8AfterCreate with
    heap := Heap.write c8AfterCreate.heap c8ReturnedRef "extra"
      (GoVal.str "mutated") }

/-- C8 counterexample: `Get` returns the stored incident record itself, so
its metadata mapping aliases internal state — before mutation a read shows
"extra" ↦ "field", and after the caller mutates the mapping returned by
`Get`, a subsequent `Get` observes "extra" ↦ "mutated". This refutes, at a
concrete input, the claim that mutating a returned mapping does not alter
what subsequent reads return. -/
theorem map_copy_counterexample :
    (memGet c8AfterCreate "pd-1").map
        (fun inc => assocGet (Heap.read c8AfterCreate.heap inc.MetadataRef)
          "extra")
      = some (some (GoVal.str "field"))
    ∧ (memGet c8AfterMutation "pd-1").map
        (fun inc => assocGet (Heap.read c8AfterMutation.heap inc.MetadataRef)
          "extra")
      = some (some (GoVal.str "mutated")) :=
  ⟨rfl, rfl⟩

/-- C8 amended: caller-supplied metadata mappings are copied on the write
path — `Create` clones the input mapping into a fresh cell, so a mutation
performed through the caller's reference after the call does not alter the
stored metadata — but read paths do not copy: `Get` returns the stored
record itself, whose metadata reference aliases internal state (hence
mutating a mapping returned by `Get` does alter what subsequent reads
return, as the counterexample shows). -/
theorem map_copy_amended (st : ProviderState) (now : Nat)
    (inp : CreateIncidentInput) (i : Nat) (k : String) (v : GoVal)
    (href : inp.MetadataRef = some i) (hi : i < st.heap.cells.length) :
    (memCreate st now inp).1.MetadataRef ≠ some i
    ∧ Heap.read
        (Heap.write (memCreate st now inp).2.heap (some i) k v)
        (memCreate st now inp).1.MetadataRef
      = Heap.read (memCreate st now inp).2.heap
          (memCreate st now inp).1.MetadataRef
    ∧ memGet (memCreate st now inp).2 (memCreate st now inp).1.ID
      = some (memCreate st now inp).1 := by
  refine ⟨?_, ?_, ?_⟩
  · cases hf : inp.FieldsRef <;>
      simp only [memCreate, cloneMap, Heap.alloc, href, hf] <;>
      simp <;> omega
  · cases hf : inp.FieldsRef <;>
      simp only [memCreate, cloneMap, Heap.alloc, Heap.write, Heap.read,
        href, hf] <;>
      rw [getD_set_ne] <;> simp <;> omega
  · simp only [memCreate, memGet]
    exact assocGet_assocSet_self _ _ _

/-- Witness for `map_copy_amended` at the concrete C8 scenario, mutating the
caller's cell 0 after the call. -/
theorem map_copy_amended_witness :
    (memCreate c8State0 7 c8Input).1.MetadataRef ≠ some 0
    ∧ Heap.read
        (Heap.write (memCreate c8State0 7 c8Input).2.heap (some 0) "extra"
          (GoVal.str "mutated"))
        (memCreate c8State0 7 c8Input).1.MetadataRef
      = Heap.read (memCreate c8State0 7 c8Input).2.heap
          (memCreate c8State0 7 c8Input).1.MetadataRef
    ∧ memGet (memCreate c8State0 7 c8Input).2
        (memCreate c8State0 7 c8Input).1.ID
      = some (memCreate c8State0 7 c8Input).1 :=
  map_copy_amended c8State0 7 c8Input 0 "extra" (GoVal.str "mutated") rfl
    (by decide)
